import Mathlib

/-!
Verification model of the probe-rs J-Link SWD Debug Access Port transaction
engine and of the Session attach layer
(src/probe-rs/src/probe/jlink/mod.rs and src/probe-rs/src/session.rs).

The probe transport (`JayLink::swd_io`) is modelled as a scripted oracle: a
list of sampled bit sequences, one per executed transfer, together with a log
of every driven sequence, so that theorems can count and inspect the
transactions that reach the wire.
-/

set_option maxRecDepth 20000

namespace ProbeRs

/-- Port classifier of a DAP register address (architecture::arm::PortType):
a DebugPort register or an AccessPort register with its port index. -/
inductive PortType where
  | DebugPort : PortType
  | AccessPort : Nat → PortType
deriving DecidableEq, Repr

/-- TransferType (src/probe-rs/src/probe/jlink/mod.rs, lines 746-750): the
direction of a SWD transfer, a write carrying its 32-bit value. -/
inductive TransferType where
  | Read : TransferType
  | Write : Nat → TransferType
deriving DecidableEq, Repr

/-- Protocol-level DAP errors (architecture::arm::DapError). -/
inductive DapError where
  | WaitResponse
  | FaultResponse
  | NoAcknowledge
  | IncorrectParity
deriving DecidableEq, Repr

/-- The DebugProbeError variants reachable from the modelled J-Link code.
`TransportError` stands for a transport-level (jaylink) failure, which in the
scripted model occurs when the script is exhausted or a scripted response has
the wrong length; `OutOfFuel` is an artifact of the embedding (it bounds the
nested-transaction recursion depth and never occurs in the theorems below);
`TodoPanic` models the `todo!()` panics in `write_ir`. -/
inductive DebugProbeError where
  | Timeout
  | NotImplemented (msg : String)
  | Dap (e : DapError)
  | TransportError
  | OutOfFuel
  | TodoPanic
deriving DecidableEq, Repr

/-- Decidable equality for `Except`, so that scripted runs of the engine can
be settled by evaluation. -/
instance {ε α : Type} [DecidableEq ε] [DecidableEq α] : DecidableEq (Except ε α) := fun x y =>
  match x, y with
  | .ok a, .ok b =>
    if h : a = b then .isTrue (by rw [h]) else .isFalse (fun hc => h (Except.ok.inj hc))
  | .error a, .error b =>
    if h : a = b then .isTrue (by rw [h]) else .isFalse (fun hc => h (Except.error.inj hc))
  | .ok _, .error _ => .isFalse (fun hc => Except.noConfusion hc)
  | .error _, .ok _ => .isFalse (fun hc => Except.noConfusion hc)

/-- Loop of `bits_to_byte`: `for (index, bit) in bits.enumerate()
{ if bit { bit_val |= 1 << index } }`. -/
def bits_to_byte_go : List Bool → Nat → Nat → Nat
  | [], _, bit_val => bit_val
  | bit :: rest, index, bit_val =>
    bits_to_byte_go rest (index + 1) (if bit then bit_val ||| (1 <<< index) else bit_val)

/-- bits_to_byte (src/probe-rs/src/probe/jlink/mod.rs, lines 1244-1254): fold
the first 32 bits, least significant bit first, into a 32-bit value. -/
def bits_to_byte (bits : List Bool) : Nat :=
  bits_to_byte_go (bits.take 32) 0 0

/-- Halving loop behind `count_ones`; the first argument is fuel making the
recursion structural (any fuel at least the bit length works, and
`count_ones` passes the number itself). -/
def count_ones_go : Nat → Nat → Nat
  | _, 0 => 0
  | 0, _ => 0
  | fuel + 1, n => n % 2 + count_ones_go fuel (n / 2)

/-- Model of `u32::count_ones` (population count), used by the parity check in
DAPAccess::read_register. -/
def count_ones (n : Nat) : Nat :=
  count_ones_go n n

/-- The write-data loop of `build_swd_transfer` (lines 806-815): push the data
bits of `value` least-significant-bit first while folding the even-parity bit:
`for _ in 0..32 { bit = value & 1 == 1; push(bit); parity ^= bit;
value >>= 1 }`; returns the pushed bits and the final parity. -/
def swd_write_bits : Nat → Nat → Bool → List Bool × Bool
  | _, 0, parity => ([], parity)
  | value, n + 1, parity =>
    let bit : Bool := decide (value &&& 1 = 1)
    let rest := swd_write_bits (value >>> 1) n (Bool.xor parity bit)
    (bit :: rest.1, rest.2)

/-- build_swd_transfer (src/probe-rs/src/probe/jlink/mod.rs, lines 752-857):
assemble the SWDIO bit sequence and the driven/sampled direction sequence for
one SWD transaction (`true` drives the line, `false` samples it). -/
def build_swd_transfer (port : PortType) (direction : TransferType) (address : Nat) :
    List Bool × List Bool :=
  let portBit : Bool :=
    match port with
    | .DebugPort => false
    | .AccessPort _ => true
  let direction_bit : Bool := decide (direction = TransferType.Read)
  let a2 : Bool := decide ((address >>> 2) &&& 1 = 1)
  let a3 : Bool := decide ((address >>> 3) &&& 1 = 1)
  let header : List Bool :=
    [false, false, true, portBit, direction_bit, a2, a3,
      Bool.xor (Bool.xor (Bool.xor portBit direction_bit) a2) a3,
      false, true, false, false, false]
  let swd_io_sequence : List Bool :=
    match direction with
    | .Write value =>
      let data := swd_write_bits value 32 false
      header ++ [false, false] ++ data.1 ++ [data.2]
    | .Read =>
      header ++ List.replicate 32 false ++ [false] ++ [false]
  let direction_sequence : List Bool :=
    (List.replicate 2 true ++ List.replicate 8 true ++ List.replicate 3 false) ++
      (match direction with
        | .Read => List.replicate 32 false ++ List.replicate 1 false ++ List.replicate 1 false
        | .Write _ => List.replicate 2 false ++ List.replicate 32 true ++ List.replicate 1 true)
  (swd_io_sequence, direction_sequence)

/-- The probe transport, modelling `JayLink::swd_io` as a scripted oracle:
`script` holds the sampled bit sequence each upcoming transfer will return and
`sent` logs every `(direction, swdio)` pair driven onto the wire. -/
structure Probe where
  script : List (List Bool)
  sent : List (List Bool × List Bool)
deriving DecidableEq, Repr

/-- Execute one `JayLink::swd_io` transfer against the scripted transport: log
the driven sequences and return the next scripted response. The transport
samples exactly one bit per driven clock, so a scripted response of any other
length (or an exhausted script) is a transport error. -/
def swd_io_exec (p : Probe) (dir seq : List Bool) :
    Probe × Except DebugProbeError (List Bool) :=
  match p.script with
  | [] => (p, .error .TransportError)
  | resp :: rest =>
    if resp.length = seq.length then
      (⟨rest, p.sent ++ [(dir, seq)]⟩, .ok resp)
    else (p, .error .TransportError)

/-- Modelled from the spec: `Abort::ADDRESS`, the DebugPort ABORT register
address (spec §6, register addressing constants per the target's Debug
Interface specification); the `dp::Abort` type itself is not among the
source files. -/
def Abort_ADDRESS : Nat := 0x0

/-- Modelled from the spec: `Ctrl::ADDRESS`, the DebugPort CTRL/STAT register
address; the `dp::Ctrl` type itself is not among the source files. -/
def Ctrl_ADDRESS : Nat := 0x4

/-- Modelled from the spec: `RdBuff::ADDRESS`, the DebugPort RDBUFF register
address; the `dp::RdBuff` type itself is not among the source files. -/
def RdBuff_ADDRESS : Nat := 0xC

/-- Modelled from the spec: an ABORT register value built as `Abort(0)` with
the ORUNERRCLR (bit 4) and STKERRCLR (bit 2) flags as given (spec §6 flag
positions); all other bits zero. -/
def abort_value (orunerrclr stkerrclr : Bool) : Nat :=
  (if orunerrclr then 1 <<< 4 else 0) ||| (if stkerrclr then 1 <<< 2 else 0)

/-- Modelled from the spec: the STICKYORUN flag (bit 1) of a CTRL/STAT value. -/
def sticky_orun (ctrl : Nat) : Bool := decide ((ctrl >>> 1) &&& 1 = 1)

/-- Modelled from the spec: the STICKYERR flag (bit 5) of a CTRL/STAT value. -/
def sticky_err (ctrl : Nat) : Bool := decide ((ctrl >>> 5) &&& 1 = 1)

/-- Classify the acknowledgement of one line-reset attempt
(src/probe-rs/src/probe/jlink/mod.rs, lines 341-364): the reset bits, idle
bits and request bits (50 + 2 + 8) are ignored and the next 3 bits are the
acknowledgement; `none` is the OK response. -/
def line_reset_ack_error (resp : List Bool) : Option DebugProbeError :=
  let ack := (resp.drop (50 + 2 + 8)).take 3
  if ack = [true, false, false] then none
  else if ack = [false, true, false] then some (.Dap .WaitResponse)
  else if ack = [false, false, true] then some (.Dap .FaultResponse)
  else some (.Dap .NoAcknowledge)

/-- JLink::swd_line_reset (lines 324-369): drive 50 high bits followed by a
DebugPort DPIDR read request; try up to twice, returning Ok on an OK
acknowledgement and otherwise the error classified from the second attempt. -/
def swd_line_reset (p : Probe) : Probe × Except DebugProbeError Unit :=
  let t := build_swd_transfer .DebugPort .Read 0
  let seq := List.replicate 50 true ++ t.1
  let dir := List.replicate 50 true ++ t.2
  match swd_io_exec p dir seq with
  | (p1, .error e) => (p1, .error e)
  | (p1, .ok resp1) =>
    match line_reset_ack_error resp1 with
    | none => (p1, .ok ())
    | some _ =>
      match swd_io_exec p1 dir seq with
      | (p2, .error e) => (p2, .error e)
      | (p2, .ok resp2) =>
        match line_reset_ack_error resp2 with
        | none => (p2, .ok ())
        | some e2 => (p2, .error e2)

/-- One activation frame of the DAP transaction engine: the entry points of
`DAPAccess::read_register` / `DAPAccess::write_register` and their
`for retry in 0..5` loops, the latter carrying the built bit sequences and the
remaining attempt count. A single fuel-indexed interpreter `dap_exec` runs
these frames so that the mutual recursion of the Rust functions (WAIT/FAULT
recovery issues nested ABORT writes and CTRL/RDBUFF reads) becomes structural
recursion on the fuel. -/
inductive DapAction where
  | readCall (port : PortType) (address : Nat)
  | readLoop (port : PortType) (address : Nat) (seq dir : List Bool) (retries : Nat)
  | writeCall (port : PortType) (address : Nat) (value : Nat)
  | writeLoop (port : PortType) (address : Nat) (value : Nat) (seq dir : List Bool)
      (retries : Nat)
deriving DecidableEq, Repr

/-- The DAP transaction engine (impl DAPAccess for JLink,
src/probe-rs/src/probe/jlink/mod.rs, lines 859-1114). Successful reads return
the 32-bit value; successful writes return 0 (discarded by the
`write_register` wrapper). The fuel only bounds the nested-transaction
recursion depth, which the Rust code leaves unbounded; every theorem below
supplies enough fuel for its script so that `OutOfFuel` never occurs. -/
def dap_exec : Nat → Probe → DapAction → Probe × Except DebugProbeError Nat
  | 0, p, _ => (p, .error .OutOfFuel)
  | fuel + 1, p, .readCall port address =>
    let t := build_swd_transfer port .Read address
    dap_exec fuel p (.readLoop port address t.1 t.2 5)
  | _ + 1, p, .readLoop _ _ _ _ 0 => (p, .error .Timeout)
  | fuel + 1, p, .readLoop port address seq dir (retries + 1) =>
    (match swd_io_exec p dir seq with
    | (p1, .error e) => (p1, .error e)
    | (p1, .ok resp) =>
      let trimmed := (resp.drop 2).drop 8
      let ack := trimmed.take 3
      if ack.getD 0 false && ack.getD 1 false && ack.getD 2 false then
        match swd_line_reset p1 with
        | (p2, .error e) => (p2, .error e)
        | (p2, .ok _) => dap_exec fuel p2 (.readLoop port address seq dir retries)
      else if ack.getD 1 false then
        match dap_exec fuel p1 (.writeCall .DebugPort Abort_ADDRESS (abort_value true false)) with
        | (p2, .error e) => (p2, .error e)
        | (p2, .ok _) => dap_exec fuel p2 (.readLoop port address seq dir retries)
      else if ack.getD 2 false then
        match dap_exec fuel p1 (.readCall .DebugPort Ctrl_ADDRESS) with
        | (p2, .error e) => (p2, .error e)
        | (p2, .ok ctrl) =>
          if sticky_orun ctrl || sticky_err ctrl then
            match dap_exec fuel p2 (.writeCall .DebugPort Abort_ADDRESS
                (abort_value (sticky_orun ctrl) (sticky_err ctrl))) with
            | (p3, .error e) => (p3, .error e)
            | (p3, .ok _) => dap_exec fuel p3 (.readLoop port address seq dir retries)
          else (p2, .error (.Dap .FaultResponse))
      else
        match port with
        | .AccessPort _ => dap_exec fuel p1 (.readCall .DebugPort RdBuff_ADDRESS)
        | .DebugPort =>
          let rest := trimmed.drop 3
          let value := bits_to_byte (rest.take 32)
          match (rest.drop 32).head? with
          | some parity =>
            if decide (count_ones value % 2 = 1) = parity then (p1, .ok value)
            else (p1, .error (.Dap .IncorrectParity))
          | none => (p1, .error (.Dap .IncorrectParity)))
  | fuel + 1, p, .writeCall port address value =>
    let t := build_swd_transfer port (.Write value) address
    dap_exec fuel p (.writeLoop port address value
      (t.1 ++ List.replicate 8 false) (t.2 ++ List.replicate 8 true) 5)
  | _ + 1, p, .writeLoop _ _ _ _ _ 0 => (p, .error .Timeout)
  | fuel + 1, p, .writeLoop port address value seq dir (retries + 1) =>
    (match swd_io_exec p dir seq with
    | (p1, .error e) => (p1, .error e)
    | (p1, .ok resp) =>
      let trimmed := (resp.drop 2).drop 8
      let ack := trimmed.take 3
      if ack.getD 0 false && ack.getD 1 false && ack.getD 2 false then
        match swd_line_reset p1 with
        | (p2, .error e) => (p2, .error e)
        | (p2, .ok _) => dap_exec fuel p2 (.writeLoop port address value seq dir retries)
      else if ack.getD 1 false then
        match dap_exec fuel p1 (.writeCall .DebugPort Abort_ADDRESS (abort_value true false)) with
        | (p2, .error e) => (p2, .error e)
        | (p2, .ok _) => dap_exec fuel p2 (.writeLoop port address value seq dir retries)
      else if ack.getD 2 false then
        match dap_exec fuel p1 (.readCall .DebugPort Ctrl_ADDRESS) with
        | (p2, .error e) => (p2, .error e)
        | (p2, .ok ctrl) =>
          if sticky_orun ctrl || sticky_err ctrl then
            match dap_exec fuel p2 (.writeCall .DebugPort Abort_ADDRESS
                (abort_value (sticky_orun ctrl) (sticky_err ctrl))) with
            | (p3, .error e) => (p3, .error e)
            | (p3, .ok _) => dap_exec fuel p3 (.writeLoop port address value seq dir retries)
          else (p2, .error (.Dap .FaultResponse))
      else (p1, .ok 0))

/-- DAPAccess::read_register for the J-Link SWD path (lines 860-989). -/
def read_register (fuel : Nat) (p : Probe) (port : PortType) (address : Nat) :
    Probe × Except DebugProbeError Nat :=
  dap_exec fuel p (.readCall port address)

/-- DAPAccess::write_register for the J-Link SWD path (lines 991-1114). -/
def write_register (fuel : Nat) (p : Probe) (port : PortType) (address value : Nat) :
    Probe × Except DebugProbeError Unit :=
  match dap_exec fuel p (.writeCall port address value) with
  | (p1, .ok _) => (p1, .ok ())
  | (p1, .error e) => (p1, .error e)

/-- The fixed 16-bit JTAG-to-SWD switching pattern sent by DebugProbe::attach
for the SWD protocol (lines 585-588). -/
def jtag_to_swd_sequence : List Bool :=
  [false, true, true, true, true, false, false, true, true, true, true, false,
    false, true, true, true]

/-- The SWDIO init sequence built by DebugProbe::attach for the SWD protocol
(lines 590-595): 64 high reset bits followed by the JTAG-to-SWD pattern; the
matching direction sequence drives every bit. -/
def attach_swd_init_sequence : List Bool :=
  List.replicate 64 true ++ jtag_to_swd_sequence

/-- The SWD branch of DebugProbe::attach (lines 581-614): send the init
sequence (its response is not inspected), then perform a line reset. -/
def attach_swd (p : Probe) : Probe × Except DebugProbeError Unit :=
  match swd_io_exec p (List.replicate 80 true) attach_swd_init_sequence with
  | (p1, .error e) => (p1, .error e)
  | (p1, .ok _) => swd_line_reset p1

/-- JTAG-side probe state for `JLink::write_ir`: the cached current IR
register and a log of every `(tms, tdi)` pair driven by `jtag_io`. The
`write_ir` path never inspects the `jtag_io` response, so the JTAG transport
needs no script. -/
structure JtagProbe where
  current_ir_reg : Nat
  jtag_sent : List (List Bool × List Bool)
deriving DecidableEq, Repr

/-- Low-order-first bits of one data byte, `k` bits' worth: the inner loop
`for _ in 0..k { tdi.push(byte & 1 == 1); byte >>= 1 }` of `write_ir`. -/
def byte_bits : Nat → Nat → List Bool
  | _, 0 => []
  | byte, k + 1 => decide (byte &&& 1 = 1) :: byte_bits (byte >>> 1) k

/-- JLink::write_ir (src/probe-rs/src/probe/jlink/mod.rs, lines 150-232):
shift `len` bits of `data` into the IR register. The `todo!()` panics for
too little data or a zero length are modelled as `TodoPanic`; the `jtag_io`
response is discarded; a length of 8 or more is rejected with NotImplemented
after the sequence was already driven; otherwise the cached IR register is
updated to `data[0]`. -/
def write_ir (p : JtagProbe) (data : List Nat) (len : Nat) :
    JtagProbe × Except DebugProbeError Unit :=
  if data.length * 8 < len then (p, .error .TodoPanic)
  else if len < 1 then (p, .error .TodoPanic)
  else
    let tms := [true, true, false, false] ++ List.replicate (len - 1) false ++
      [true, true, false]
    let num_bytes := len / 8
    let num_bits := len - num_bytes * 8
    let tdi := [false, false, false, false] ++
      ((data.take num_bytes).map (fun b => byte_bits b 8)).flatten ++
      (if num_bits > 0 then byte_bits (data.getD num_bytes 0) num_bits else []) ++
      [false, false]
    let p1 : JtagProbe := { p with jtag_sent := p.jtag_sent ++ [(tms, tdi)] }
    if 8 ≤ len then
      (p1, .error (.NotImplemented "Not yet implemented for IR registers larger than 8 bit"))
    else
      ({ p1 with current_ir_reg := data.getD 0 0 }, .ok ())

/-- Target architecture variants (config::Architecture): a closed set. -/
inductive Architecture where
  | Arm
  | Riscv
deriving DecidableEq, Repr

/-- AttachMethod (crate::AttachMethod): a normal attach or connect under
reset. -/
inductive AttachMethod where
  | Normal
  | UnderReset
deriving DecidableEq, Repr

/-- Core type descriptor stored per core entry
(SpecificCoreState::core_type); the session layer treats it opaquely, so only
an architecture tag is modelled. -/
inductive CoreType where
  | Arm
  | Riscv
deriving DecidableEq, Repr

/-- Observable external calls made during Session::new: the Debug Sequence
hooks, the reset-line deassert, and the timeout-bounded halt waits
(`wait_for_core_halted(Duration::from_millis(100))` for the ARM under-reset
path, `halt(Duration::from_millis(100))` for the RISC-V path). -/
inductive SessionEvent where
  | debug_port_setup
  | debug_core_start
  | reset_catch_set
  | target_reset_deassert
  | wait_for_core_halted
  | reset_catch_clear
  | riscv_halt
  | clear_all_hw_breakpoints
deriving DecidableEq, Repr

/-- Outcomes of the fallible external calls Session::new makes, one flag per
call site; the calls themselves go to the probe and target, outside this
model. -/
structure SessionEnv where
  arm_interface_ok : Bool
  debug_port_setup_ok : Bool
  initialize_ok : Bool
  debug_core_start_ok : Bool
  memory_interface_ok : Bool
  reset_catch_set_ok : Bool
  reset_deassert_ok : Bool
  wait_halted_ok : Bool
  reset_catch_clear_ok : Bool
  riscv_interface_ok : Bool
  riscv_halt_ok : Bool
  clear_breakpoints_ok : Bool
deriving DecidableEq, Repr

/-- The probe_rs::Error variants the session model distinguishes:
`CoreNotFound` (returned by Session::core for an out-of-range index) and an
opaque variant covering every probe or hook failure. -/
inductive SessionError where
  | CoreNotFound (n : Nat)
  | Other
deriving DecidableEq, Repr

/-- The Session (src/probe-rs/src/session.rs, lines 44-49): the architecture
of its interface and the core table, each entry reduced to its core type
(CoreState carries only per-core runtime data the session layer never
reads). `attach_ok` records whether the architecture interface can produce
the memory interface used by ArchitectureInterface::attach. -/
structure SessionModel where
  architecture : Architecture
  cores : List CoreType
  attach_ok : Bool
deriving DecidableEq, Repr

/-- Session::core (src/probe-rs/src/session.rs, lines 237-241): look up core
`n` in the table, returning CoreNotFound when absent, then attach through the
architecture interface. -/
def SessionModel.core (s : SessionModel) (n : Nat) : Except SessionError Unit :=
  match s.cores[n]? with
  | none => .error (.CoreNotFound n)
  | some _ => if s.attach_ok then .ok () else .error .Other

/-- Session::list_cores (lines 214-220): the core types, enumerated. -/
def SessionModel.list_cores (s : SessionModel) : List (Nat × CoreType) :=
  s.cores.enum

/-- Session::new (src/probe-rs/src/session.rs, lines 105-196), with every
external call replaced by its scripted outcome from `env` and logged. The ARM
branch runs debug_port_setup, initializes the interface, runs
debug_core_start, builds the single-entry core table, and for
attach-under-reset then attaches core 0, arms the reset catch, deasserts the
reset line, waits (bounded by a timeout) for the core to halt and clears the
reset catch. The RISC-V branch builds the single-entry core table and halts
core 0 with a bounded timeout. Both branches end by clearing all hardware
breakpoints, which attaches each core in turn. -/
def session_new (arch : Architecture) (ct : CoreType) (method : AttachMethod)
    (env : SessionEnv) : Except SessionError SessionModel × List SessionEvent :=
  match arch with
  | .Arm =>
    if !env.arm_interface_ok then (.error .Other, []) else
    let log0 := [SessionEvent.debug_port_setup]
    if !env.debug_port_setup_ok then (.error .Other, log0) else
    if !env.initialize_ok then (.error .Other, log0) else
    let log1 := log0 ++ [SessionEvent.debug_core_start]
    if !env.debug_core_start_ok then (.error .Other, log1) else
    let s : SessionModel := ⟨.Arm, [ct], env.memory_interface_ok⟩
    match method with
    | .UnderReset =>
      match s.core 0 with
      | .error _ => (.error .Other, log1)
      | .ok _ =>
        let log2 := log1 ++ [SessionEvent.reset_catch_set]
        if !env.reset_catch_set_ok then (.error .Other, log2) else
        let log3 := log2 ++ [SessionEvent.target_reset_deassert]
        if !env.reset_deassert_ok then (.error .Other, log3) else
        match s.core 0 with
        | .error _ => (.error .Other, log3)
        | .ok _ =>
          let log4 := log3 ++ [SessionEvent.wait_for_core_halted]
          if !env.wait_halted_ok then (.error .Other, log4) else
          let log5 := log4 ++ [SessionEvent.reset_catch_clear]
          if !env.reset_catch_clear_ok then (.error .Other, log5) else
          match s.core 0 with
          | .error _ => (.error .Other, log5)
          | .ok _ =>
            let log6 := log5 ++ [SessionEvent.clear_all_hw_breakpoints]
            if !env.clear_breakpoints_ok then (.error .Other, log6) else
            (.ok s, log6)
    | .Normal =>
      match s.core 0 with
      | .error _ => (.error .Other, log1)
      | .ok _ =>
        let log2 := log1 ++ [SessionEvent.clear_all_hw_breakpoints]
        if !env.clear_breakpoints_ok then (.error .Other, log2) else
        (.ok s, log2)
  | .Riscv =>
    if !env.riscv_interface_ok then (.error .Other, []) else
    let s : SessionModel := ⟨.Riscv, [ct], env.memory_interface_ok⟩
    match s.core 0 with
    | .error _ => (.error .Other, [])
    | .ok _ =>
      let log1 := [SessionEvent.riscv_halt]
      if !env.riscv_halt_ok then (.error .Other, log1) else
      match s.core 0 with
      | .error _ => (.error .Other, log1)
      | .ok _ =>
        let log2 := log1 ++ [SessionEvent.clear_all_hw_breakpoints]
        if !env.clear_breakpoints_ok then (.error .Other, log2) else
        (.ok s, log2)

/-!
### Scripted test vectors

Concrete sampled responses used by the scenario theorems. A response to a
read request is 47 bits (2 idle + 8 request + 3 ack + 32 data + 1 parity +
1 turnaround), a response to a write request is 56 bits (2 idle + 8 request +
3 ack + 2 turnaround + 32 data + 1 parity + 8 idle), and a response to a line
reset is 97 bits (50 reset bits + a 47-bit read response).
-/

/-- Response to a read request whose acknowledgement is WAIT. -/
def respWait47 : List Bool :=
  List.replicate 10 false ++ [false, true, false] ++ List.replicate 34 false

/-- Response to a read request whose acknowledgement is FAULT. -/
def respFault47 : List Bool :=
  List.replicate 10 false ++ [false, false, true] ++ List.replicate 34 false

/-- Response to a read request with all three acknowledgement bits high. -/
def respNoack47 : List Bool :=
  List.replicate 10 false ++ [true, true, true] ++ List.replicate 34 false

/-- Response to a write request whose acknowledgement is OK. -/
def respOk56 : List Bool :=
  List.replicate 10 false ++ [true, false, false] ++ List.replicate 43 false

/-- Response to a write request whose acknowledgement is WAIT. -/
def respWait56 : List Bool :=
  List.replicate 10 false ++ [false, true, false] ++ List.replicate 43 false

/-- Response to a write request whose acknowledgement is FAULT. -/
def respFault56 : List Bool :=
  List.replicate 10 false ++ [false, false, true] ++ List.replicate 43 false

/-- Response to a line reset whose DPIDR read is acknowledged OK. -/
def lineOk97 : List Bool :=
  List.replicate 60 false ++ [true, false, false] ++ List.replicate 34 false

/-- Response to a DebugPort read request: OK acknowledgement, the 32 data bits
of `v` least-significant-bit first, the matching odd-popcount parity bit and a
turnaround bit. -/
def dp_read_resp (v : Nat) : List Bool :=
  List.replicate 10 false ++ [true, false, false] ++ (swd_write_bits v 32 false).1 ++
    [decide (count_ones v % 2 = 1)] ++ [false]

/-- Response to a DebugPort read request carrying `v` with the WRONG parity
bit. -/
def dp_read_resp_bad (v : Nat) : List Bool :=
  List.replicate 10 false ++ [true, false, false] ++ (swd_write_bits v 32 false).1 ++
    [!decide (count_ones v % 2 = 1)] ++ [false]

/-- The `(direction, swdio)` pair a read request drives onto the wire. -/
def read_send (port : PortType) (address : Nat) : List Bool × List Bool :=
  ((build_swd_transfer port .Read address).2, (build_swd_transfer port .Read address).1)

/-- The `(direction, swdio)` pair a write request (with its 8 trailing idle
cycles) drives onto the wire. -/
def write_send (port : PortType) (address value : Nat) : List Bool × List Bool :=
  ((build_swd_transfer port (.Write value) address).2 ++ List.replicate 8 true,
   (build_swd_transfer port (.Write value) address).1 ++ List.replicate 8 false)

/-- The `(direction, swdio)` pair of the ABORT write issued after a WAIT
acknowledgement: a DebugPort write of `Abort(0).set_orunerrclr(true)`. -/
def abort_send : List Bool × List Bool :=
  write_send .DebugPort Abort_ADDRESS (abort_value true false)

/-- The `(direction, swdio)` pair a line reset drives onto the wire. -/
def line_send : List Bool × List Bool :=
  (List.replicate 50 true ++ (build_swd_transfer .DebugPort .Read 0).2,
   List.replicate 50 true ++ (build_swd_transfer .DebugPort .Read 0).1)

/-!
### Bit-level lemmas about the codec
-/

/-- The write-data loop emits exactly `n` bits. -/
theorem swd_write_bits_length (value n : Nat) (parity : Bool) :
    (swd_write_bits value n parity).1.length = n := by
  induction n generalizing value parity with
  | zero => rfl
  | succ n ih => simp [swd_write_bits, ih]

/-- Or-ing a power of two into a number below it is addition. -/
theorem lor_two_pow_of_lt {a i : Nat} (h : a < 2 ^ i) : a ||| 2 ^ i = a + 2 ^ i := by
  induction i generalizing a with
  | zero =>
    have ha : a = 0 := by omega
    subst ha
    decide
  | succ i ih =>
    have hp : (2 : Nat) ^ (i + 1) = 2 * 2 ^ i := by rw [Nat.pow_succ]; ring
    have hmod : (a ||| 2 ^ (i + 1)) % 2 = a % 2 := by
      have hiff := Nat.or_mod_two_eq_one (a := a) (b := 2 ^ (i + 1))
      have h1 : (a ||| 2 ^ (i + 1)) % 2 < 2 := Nat.mod_lt _ (by omega)
      have h2 : a % 2 < 2 := Nat.mod_lt _ (by omega)
      omega
    have hdiv : (a ||| 2 ^ (i + 1)) / 2 = a / 2 ||| 2 ^ i := by
      rw [Nat.or_div_two]
      congr 1
      omega
    have hlt : a / 2 < 2 ^ i := by omega
    have hih := ih hlt
    have hdm := Nat.div_add_mod (a ||| 2 ^ (i + 1)) 2
    have hdm2 := Nat.div_add_mod a 2
    omega

/-- Decoding the write-data bits with the `bits_to_byte` loop, starting at bit
`index` with accumulated bits below `2 ^ index`, adds the encoded value shifted
into place. -/
theorem bits_to_byte_go_swd (n : Nat) :
    ∀ (value : Nat) (p : Bool) (i acc : Nat), acc < 2 ^ i →
      bits_to_byte_go (swd_write_bits value n p).1 i acc = acc + 2 ^ i * (value % 2 ^ n) := by
  induction n with
  | zero =>
    intro value p i acc _
    simp [swd_write_bits, bits_to_byte_go, Nat.mod_one]
  | succ n ih =>
    intro value p i acc hacc
    have hs : value >>> 1 = value / 2 := by
      rw [Nat.shiftRight_succ, Nat.shiftRight_zero]
    have hm : value % 2 ^ (n + 1) = value % 2 + 2 * (value / 2 % 2 ^ n) := by
      rw [Nat.pow_succ, Nat.mul_comm (2 ^ n) 2, Nat.mod_mul]
    have hpow : (2 : Nat) ^ (i + 1) = 2 ^ i * 2 := Nat.pow_succ ..
    simp only [swd_write_bits, bits_to_byte_go, Nat.and_one_is_mod, Nat.one_shiftLeft, hs]
    by_cases hv : value % 2 = 1
    · have hbit : decide (value % 2 = 1) = true := by simp [hv]
      rw [hbit]
      simp only [if_pos rfl, if_true]
      rw [lor_two_pow_of_lt hacc]
      rw [ih (value / 2) _ (i + 1) (acc + 2 ^ i) (by omega)]
      rw [hm, hv, hpow]
      ring
    · have hbit : decide (value % 2 = 1) = false := by simp [hv]
      have hv0 : value % 2 = 0 := by omega
      rw [hbit]
      simp only [Bool.false_eq_true, if_false]
      rw [ih (value / 2) _ (i + 1) acc (by omega)]
      rw [hm, hv0, hpow]
      ring

/-- Round trip: `bits_to_byte` recovers the value encoded by the write-data
loop of `build_swd_transfer`. -/
theorem bits_to_byte_swd_write_bits (value : Nat) (p : Bool) (h : value < 2 ^ 32) :
    bits_to_byte (swd_write_bits value 32 p).1 = value := by
  unfold bits_to_byte
  rw [List.take_of_length_le (by rw [swd_write_bits_length])]
  rw [bits_to_byte_go_swd 32 value p 0 0 (by decide)]
  rw [Nat.mod_eq_of_lt h]
  ring

/-- The parity accumulated by the write-data loop is the XOR-fold of the bits
it emitted. -/
theorem swd_write_bits_parity (value n : Nat) (p : Bool) :
    (swd_write_bits value n p).2 = List.foldl Bool.xor p (swd_write_bits value n p).1 := by
  induction n generalizing value p with
  | zero => rfl
  | succ n ih =>
    simp only [swd_write_bits, List.foldl]
    exact ih (value >>> 1) (Bool.xor p (decide (value &&& 1 = 1)))

/-!
### The claims
-/

/-- C1: for a DAP register read or write, the transaction engine issues at
most 5 attempts of the request; when all 5 attempts are acknowledged WAIT
(each followed by the ABORT overrun-clear write the WAIT handler issues), it
returns DebugProbeError::Timeout and the wire log shows exactly 5 attempts of
the original request — no sixth. -/
theorem claim_C1 :
    (∀ (port : PortType) (address : Nat),
      read_register 50 ⟨[respWait47, respOk56, respWait47, respOk56, respWait47, respOk56,
          respWait47, respOk56, respWait47, respOk56], []⟩ port address
        = (⟨[], [read_send port address, abort_send, read_send port address, abort_send,
            read_send port address, abort_send, read_send port address, abort_send,
            read_send port address, abort_send]⟩, .error .Timeout))
    ∧ (∀ (port : PortType) (address value : Nat),
      write_register 50 ⟨[respWait56, respOk56, respWait56, respOk56, respWait56, respOk56,
          respWait56, respOk56, respWait56, respOk56], []⟩ port address value
        = (⟨[], [write_send port address value, abort_send, write_send port address value,
            abort_send, write_send port address value, abort_send,
            write_send port address value, abort_send, write_send port address value,
            abort_send]⟩, .error .Timeout)) := by
  constructor
  · intro port address
    simp [read_register, dap_exec, swd_io_exec, respWait47, respOk56, build_swd_transfer,
      read_send, write_send, abort_send, swd_write_bits, List.replicate, Abort_ADDRESS,
      abort_value]
  · intro port address value
    simp [write_register, dap_exec, swd_io_exec, respWait56, respOk56, build_swd_transfer,
      write_send, abort_send, swd_write_bits, swd_write_bits_length, List.replicate,
      Abort_ADDRESS, abort_value]

/-- C2: a read of an Access-Port register that is acknowledged OK returns the
value obtained from the follow-up DebugPort read of RDBUFF, not the data bits
sampled in the AP response itself: those 34 trailing bits (`junk`, arbitrary)
are discarded without parity validation, and the wire log shows exactly the
AP request followed by the RDBUFF request. -/
theorem claim_C2 (n address : Nat) (junk : List Bool) (v : Nat)
    (hjunk : junk.length = 34) (hv : v < 2 ^ 32) :
    read_register 50 ⟨[(List.replicate 10 false ++ [true, false, false]) ++ junk,
        dp_read_resp v], []⟩ (.AccessPort n) address
      = (⟨[], [read_send (.AccessPort n) address, read_send .DebugPort RdBuff_ADDRESS]⟩,
          .ok v) := by
  simp [read_register, dap_exec, swd_io_exec, dp_read_resp, read_send, build_swd_transfer,
    List.replicate, RdBuff_ADDRESS, hjunk, swd_write_bits_length, List.take_left',
    List.drop_left', bits_to_byte_swd_write_bits v false hv]

/-- Witness for C2: a concrete AP read whose response data bits would decode
to 7 (with a parity bit that would even be wrong for them) returns the
RDBUFF value 3735928559 instead. -/
theorem claim_C2_witness :
    read_register 50 ⟨[(List.replicate 10 false ++ [true, false, false]) ++
        ((swd_write_bits 7 32 false).1 ++ [false] ++ [false]),
        dp_read_resp 3735928559], []⟩ (.AccessPort 1) 4
      = (⟨[], [read_send (.AccessPort 1) 4, read_send .DebugPort RdBuff_ADDRESS]⟩,
          .ok 3735928559) :=
  claim_C2 1 4 _ 3735928559 (by decide) (by decide)

/-- C3: given the acknowledgement sequence [WAIT, WAIT, OK] for a register
transaction, the engine performs exactly two ABORT overrun-clear writes (one
after each WAIT), issues exactly three attempts of the original request, and
returns the successful result (for a read, the value carried by the OK
response). -/
theorem claim_C3 :
    (∀ (address v : Nat), v < 2 ^ 32 →
      read_register 50 ⟨[respWait47, respOk56, respWait47, respOk56, dp_read_resp v],
          []⟩ .DebugPort address
        = (⟨[], [read_send .DebugPort address, abort_send, read_send .DebugPort address,
            abort_send, read_send .DebugPort address]⟩, .ok v))
    ∧ (∀ (port : PortType) (address value : Nat),
      write_register 50 ⟨[respWait56, respOk56, respWait56, respOk56, respOk56],
          []⟩ port address value
        = (⟨[], [write_send port address value, abort_send, write_send port address value,
            abort_send, write_send port address value]⟩, .ok ())) := by
  constructor
  · intro address v hv
    simp [read_register, dap_exec, swd_io_exec, respWait47, respOk56, dp_read_resp,
      read_send, write_send, abort_send, build_swd_transfer, List.replicate, Abort_ADDRESS,
      abort_value, swd_write_bits_length, List.take_left', List.drop_left',
      bits_to_byte_swd_write_bits v false hv]
  · intro port address value
    simp [write_register, dap_exec, swd_io_exec, respWait56, respOk56, build_swd_transfer,
      write_send, abort_send, swd_write_bits, swd_write_bits_length, List.replicate,
      Abort_ADDRESS, abort_value]

/-- Witness for C3: the read scenario at address 0 with the OK response
carrying 3735928559. -/
theorem claim_C3_witness :
    read_register 50 ⟨[respWait47, respOk56, respWait47, respOk56,
        dp_read_resp 3735928559], []⟩ .DebugPort 0
      = (⟨[], [read_send .DebugPort 0, abort_send, read_send .DebugPort 0, abort_send,
          read_send .DebugPort 0]⟩, .ok 3735928559) :=
  claim_C3.1 0 3735928559 (by decide)

/-- Booleans never equal their own negation (used by the parity-mismatch
scenario). -/
theorem bool_eq_not_self_iff (b : Bool) : (b = !b) ↔ False := by
  cases b <;> simp

/-- C4: on a FAULT acknowledgement the engine reads CTRL/STAT; if the sticky
overrun or sticky error flag is set it writes ABORT clearing exactly the set
flags and retries the same request, and if neither flag is set it returns
FaultResponse without retrying (the remaining script is untouched). Shown for
sticky overrun (CTRL/STAT = 2, ABORT clears only ORUNERRCLR), sticky error
(CTRL/STAT = 32, ABORT clears only STKERRCLR), and the non-recoverable case
for both a read and a write transaction. -/
theorem claim_C4 :
    (∀ (address : Nat),
      read_register 50 ⟨[respFault47, dp_read_resp 2, respOk56, dp_read_resp 0],
          []⟩ .DebugPort address
        = (⟨[], [read_send .DebugPort address, read_send .DebugPort Ctrl_ADDRESS,
            write_send .DebugPort Abort_ADDRESS (abort_value true false),
            read_send .DebugPort address]⟩, .ok 0))
    ∧ (∀ (address : Nat),
      read_register 50 ⟨[respFault47, dp_read_resp 32, respOk56, dp_read_resp 0],
          []⟩ .DebugPort address
        = (⟨[], [read_send .DebugPort address, read_send .DebugPort Ctrl_ADDRESS,
            write_send .DebugPort Abort_ADDRESS (abort_value false true),
            read_send .DebugPort address]⟩, .ok 0))
    ∧ (∀ (address : Nat),
      read_register 50 ⟨[respFault47, dp_read_resp 0, dp_read_resp 0], []⟩ .DebugPort address
        = (⟨[dp_read_resp 0], [read_send .DebugPort address,
            read_send .DebugPort Ctrl_ADDRESS]⟩, .error (.Dap .FaultResponse)))
    ∧ (∀ (port : PortType) (address value : Nat),
      write_register 50 ⟨[respFault56, dp_read_resp 0, dp_read_resp 0], []⟩ port address value
        = (⟨[dp_read_resp 0], [write_send port address value,
            read_send .DebugPort Ctrl_ADDRESS]⟩, .error (.Dap .FaultResponse))) := by
  refine ⟨fun address => ?_, fun address => ?_, fun address => ?_,
    fun port address value => ?_⟩ <;>
    simp [read_register, write_register, dap_exec, swd_io_exec, respFault47, respFault56,
      respOk56, dp_read_resp, read_send, write_send, build_swd_transfer, swd_write_bits,
      bits_to_byte, bits_to_byte_go, count_ones, count_ones_go, List.replicate,
      Abort_ADDRESS, Ctrl_ADDRESS, abort_value, sticky_orun, sticky_err]

/-- C5: a DebugPort read acknowledged OK takes the 32-bit value and its parity
bit inline from the same response and validates them immediately; on a parity
mismatch it returns IncorrectParity and never retries (one single request on
the wire, the remaining script untouched). -/
theorem claim_C5 :
    (∀ (address v : Nat), v < 2 ^ 32 →
      read_register 50 ⟨[dp_read_resp v], []⟩ .DebugPort address
        = (⟨[], [read_send .DebugPort address]⟩, .ok v))
    ∧ (∀ (address v : Nat), v < 2 ^ 32 →
      read_register 50 ⟨[dp_read_resp_bad v, dp_read_resp v], []⟩ .DebugPort address
        = (⟨[dp_read_resp v], [read_send .DebugPort address]⟩,
            .error (.Dap .IncorrectParity))) := by
  constructor
  · intro address v hv
    simp [read_register, dap_exec, swd_io_exec, dp_read_resp, read_send, build_swd_transfer,
      List.replicate, swd_write_bits_length, List.take_left', List.drop_left',
      bits_to_byte_swd_write_bits v false hv]
  · intro address v hv
    simp [read_register, dap_exec, swd_io_exec, dp_read_resp, dp_read_resp_bad, read_send,
      build_swd_transfer, List.replicate, swd_write_bits_length, List.take_left',
      List.drop_left', bits_to_byte_swd_write_bits v false hv, bool_eq_not_self_iff]

/-- Witness for C5: both halves at address 0 with the value 5. -/
theorem claim_C5_witness :
    read_register 50 ⟨[dp_read_resp 5], []⟩ .DebugPort 0
        = (⟨[], [read_send .DebugPort 0]⟩, .ok 5)
    ∧ read_register 50 ⟨[dp_read_resp_bad 5, dp_read_resp 5], []⟩ .DebugPort 0
        = (⟨[dp_read_resp 5], [read_send .DebugPort 0]⟩, .error (.Dap .IncorrectParity)) :=
  ⟨claim_C5.1 0 5 (by decide), claim_C5.2 0 5 (by decide)⟩

/-- C6: the SWD write transaction built by build_swd_transfer carries the
32-bit value least-significant-bit first in bit positions 15..46 (after the
2 idle, 8 request, 3 ack placeholder and 2 turnaround bits), immediately
followed by one parity bit equal to the XOR-fold of those 32 data bits; the
direction vector drives all 32 data positions, and decoding the data field
with `bits_to_byte` recovers the value exactly. -/
theorem claim_C6 (port : PortType) (address v : Nat) (hv : v < 2 ^ 32) :
    bits_to_byte ((((build_swd_transfer port (.Write v) address).1).drop 15).take 32) = v
    ∧ ((build_swd_transfer port (.Write v) address).1).drop 47
        = [List.foldl Bool.xor false
            ((((build_swd_transfer port (.Write v) address).1).drop 15).take 32)]
    ∧ ((((build_swd_transfer port (.Write v) address).2).drop 15).take 32
        = List.replicate 32 true) := by
  refine ⟨?_, ?_, ?_⟩ <;>
    simp [build_swd_transfer, List.replicate, swd_write_bits_length, List.take_left',
      List.drop_left', bits_to_byte_swd_write_bits v false hv, swd_write_bits_parity]

/-- Witness for C6: the write transaction for value 3735928559 at AccessPort 0,
address 4. -/
theorem claim_C6_witness :
    bits_to_byte ((((build_swd_transfer (.AccessPort 0) (.Write 3735928559) 4).1).drop 15).take 32)
      = 3735928559
    ∧ ((build_swd_transfer (.AccessPort 0) (.Write 3735928559) 4).1).drop 47
        = [List.foldl Bool.xor false
            ((((build_swd_transfer (.AccessPort 0) (.Write 3735928559) 4).1).drop 15).take 32)]
    ∧ ((((build_swd_transfer (.AccessPort 0) (.Write 3735928559) 4).2).drop 15).take 32
        = List.replicate 32 true) :=
  claim_C6 (.AccessPort 0) 4 3735928559 (by decide)

/-- C7 counterexample: the line reset sequence driven by swd_line_reset does
NOT contain the fixed 16-bit JTAG-to-SWD magic pattern after its 50 high
bits — what follows them is a DPIDR read request (the magic pattern is sent
separately, only inside DebugProbe::attach). -/
theorem claim_C7_counterexample :
    swd_line_reset ⟨[lineOk97], []⟩ = (⟨[], [line_send]⟩, .ok ())
    ∧ ¬((line_send.2.drop 50).take 16 = jtag_to_swd_sequence) := by decide

/-- C7 amended: the line reset consists of 50 driven-high bits followed by a
DebugPort DPIDR read request; at SWD protocol initialization the probe first
transmits 64 high bits plus the 16-bit JTAG-to-SWD pattern and then issues a
line reset, and after a NoAck acknowledgement (all three ack bits high) the
engine issues a line reset before its next retry of the same request. -/
theorem claim_C7_amended :
    line_send.2 = List.replicate 50 true ++ (build_swd_transfer .DebugPort .Read 0).1
    ∧ line_send.1.take 50 = List.replicate 50 true
    ∧ attach_swd_init_sequence = List.replicate 64 true ++ jtag_to_swd_sequence
    ∧ attach_swd ⟨[List.replicate 80 false, lineOk97], []⟩
        = (⟨[], [(List.replicate 80 true, attach_swd_init_sequence), line_send]⟩, .ok ())
    ∧ (∀ (address : Nat),
      read_register 50 ⟨[respNoack47, lineOk97, dp_read_resp 0], []⟩ .DebugPort address
        = (⟨[], [read_send .DebugPort address, line_send, read_send .DebugPort address]⟩,
            .ok 0)) := by
  refine ⟨by decide, by decide, rfl, by decide, fun address => ?_⟩
  simp [read_register, dap_exec, swd_io_exec, swd_line_reset, line_reset_ack_error,
    respNoack47, lineOk97, dp_read_resp, read_send, line_send, build_swd_transfer,
    swd_write_bits, bits_to_byte, bits_to_byte_go, count_ones, count_ones_go,
    List.replicate]

/-- C8: write_ir evaluated at the boundary length. A 5-bit IR write succeeds
and updates the cached IR register to data[0]; an 8-bit IR write — which the
claim (and the error message in the code itself, "larger than 8 bit") says
the path handles — is rejected with NotImplemented because the code tests
`len >= 8` rather than `len > 8`, and leaves the cache unchanged; a 9-bit
write is likewise rejected. -/
theorem claim_C8 :
    (write_ir ⟨1, []⟩ [10] 5).2 = .ok ()
    ∧ (write_ir ⟨1, []⟩ [10] 5).1.current_ir_reg = 10
    ∧ (write_ir ⟨1, []⟩ [10] 8).2
        = .error (.NotImplemented "Not yet implemented for IR registers larger than 8 bit")
    ∧ (write_ir ⟨1, []⟩ [10] 8).1.current_ir_reg = 1
    ∧ (write_ir ⟨1, []⟩ [10, 0] 9).2
        = .error (.NotImplemented "Not yet implemented for IR registers larger than 8 bit") := by
  decide

/-- Environment in which every external call succeeds. -/
def env_all_true : SessionEnv :=
  ⟨true, true, true, true, true, true, true, true, true, true, true, true⟩

/-- The full event sequence of a successful ARM attach-under-reset Session
construction, in order. -/
def arm_ur_events : List SessionEvent :=
  [.debug_port_setup, .debug_core_start, .reset_catch_set, .target_reset_deassert,
   .wait_for_core_halted, .reset_catch_clear, .clear_all_hw_breakpoints]

/-- How far into `arm_ur_events` the ARM attach-under-reset construction gets
before its first failing external call (7 when everything succeeds). -/
def arm_ur_len (env : SessionEnv) : Nat :=
  if !env.arm_interface_ok then 0
  else if !env.debug_port_setup_ok then 1
  else if !env.initialize_ok then 1
  else if !env.debug_core_start_ok then 2
  else if !env.memory_interface_ok then 2
  else if !env.reset_catch_set_ok then 3
  else if !env.reset_deassert_ok then 4
  else if !env.wait_halted_ok then 5
  else if !env.reset_catch_clear_ok then 6
  else 7

/-- The event log of an ARM attach-under-reset construction is always a prefix
of `arm_ur_events`, cut at the first failing call. -/
theorem arm_ur_log (ct : CoreType) (env : SessionEnv) :
    (session_new .Arm ct .UnderReset env).2 = arm_ur_events.take (arm_ur_len env) := by
  obtain ⟨a, b, c, d, e, f, g, h, i, j, k, l⟩ := env
  cases a <;> cases b <;> cases c <;> cases d <;> cases e <;> cases f <;> cases g <;>
    cases h <;> cases i <;> cases l <;> rfl

/-- The log length is at most the seven events. -/
theorem arm_ur_len_le (env : SessionEnv) : arm_ur_len env ≤ 7 := by
  unfold arm_ur_len
  repeat' split
  all_goals omega

/-- Reaching the reset_catch_clear event requires the bounded halt wait to
have succeeded. -/
theorem arm_ur_len_wait (env : SessionEnv) (h : 6 ≤ arm_ur_len env) :
    env.wait_halted_ok = true := by
  unfold arm_ur_len at h
  repeat' split at h
  all_goals simp_all

/-- C9: during attach-under-reset Session construction, whenever the physical
reset line is deasserted, reset_catch_set was invoked strictly before the
deassert; and whenever reset_catch_clear is invoked, the timeout-bounded wait
for the halted core ran (successfully) strictly before it — for every
combination of external-call outcomes. -/
theorem claim_C9 (ct : CoreType) (env : SessionEnv) :
    (SessionEvent.target_reset_deassert ∈ (session_new .Arm ct .UnderReset env).2 →
      SessionEvent.reset_catch_set ∈ (session_new .Arm ct .UnderReset env).2 ∧
      (session_new .Arm ct .UnderReset env).2.indexOf SessionEvent.reset_catch_set <
        (session_new .Arm ct .UnderReset env).2.indexOf SessionEvent.target_reset_deassert)
    ∧ (SessionEvent.reset_catch_clear ∈ (session_new .Arm ct .UnderReset env).2 →
      env.wait_halted_ok = true ∧
      SessionEvent.wait_for_core_halted ∈ (session_new .Arm ct .UnderReset env).2 ∧
      (session_new .Arm ct .UnderReset env).2.indexOf SessionEvent.wait_for_core_halted <
        (session_new .Arm ct .UnderReset env).2.indexOf SessionEvent.reset_catch_clear) := by
  have hlog := arm_ur_log ct env
  have hle := arm_ur_len_le env
  have hw := arm_ur_len_wait env
  rw [hlog]
  generalize hgen : arm_ur_len env = k at hle hw
  interval_cases k <;>
    refine ⟨fun hm => ?_, fun hm => ?_⟩ <;>
      first
        | exact absurd hm (by decide)
        | exact ⟨by decide, by decide⟩
        | exact ⟨hw (by omega), by decide, by decide⟩

/-- Witness for C9: with every external call succeeding, reset_catch_set
(index 2) precedes the deassert (index 3) and the bounded wait (index 4)
precedes reset_catch_clear (index 5). -/
theorem claim_C9_witness :
    (SessionEvent.reset_catch_set ∈ (session_new .Arm .Arm .UnderReset env_all_true).2 ∧
      (session_new .Arm .Arm .UnderReset env_all_true).2.indexOf SessionEvent.reset_catch_set <
        (session_new .Arm .Arm .UnderReset env_all_true).2.indexOf
          SessionEvent.target_reset_deassert)
    ∧ (env_all_true.wait_halted_ok = true ∧
      SessionEvent.wait_for_core_halted ∈ (session_new .Arm .Arm .UnderReset env_all_true).2 ∧
      (session_new .Arm .Arm .UnderReset env_all_true).2.indexOf
          SessionEvent.wait_for_core_halted <
        (session_new .Arm .Arm .UnderReset env_all_true).2.indexOf
          SessionEvent.reset_catch_clear) :=
  ⟨(claim_C9 .Arm env_all_true).1 (by decide), (claim_C9 .Arm env_all_true).2 (by decide)⟩

/-- Session::new either fails or returns the session whose core table is the
single entry for core 0, for every architecture, method and environment. -/
theorem session_new_fst (arch : Architecture) (ct : CoreType) (method : AttachMethod)
    (env : SessionEnv) :
    (session_new arch ct method env).1 = .error .Other
    ∨ (session_new arch ct method env).1 = .ok ⟨arch, [ct], env.memory_interface_ok⟩ := by
  obtain ⟨a, b, c, d, e, f, g, h, i, j, k, l⟩ := env
  cases arch
  · cases method
    · cases a <;> cases b <;> cases c <;> cases d <;> cases e <;> cases l <;>
        first
          | exact Or.inl rfl
          | exact Or.inr rfl
    · cases a <;> cases b <;> cases c <;> cases d <;> cases e <;> cases f <;> cases g <;>
        cases h <;> cases i <;> cases l <;>
        first
          | exact Or.inl rfl
          | exact Or.inr rfl
  · cases method <;>
      (cases j <;> cases e <;> cases k <;> cases l <;>
        first
          | exact Or.inl rfl
          | exact Or.inr rfl)

/-- C10: every successfully constructed Session — over both the ARM and the
RISC-V branch, any attach method, any core type and any environment — has a
core table with exactly the single entry of index 0: list_cores returns
exactly one element and Session::core(n) returns CoreNotFound(n) for every
index n ≥ 1. -/
theorem claim_C10 (arch : Architecture) (ct : CoreType) (method : AttachMethod)
    (env : SessionEnv) (s : SessionModel)
    (h : (session_new arch ct method env).1 = .ok s) :
    s.cores = [ct] ∧ s.list_cores = [(0, ct)]
    ∧ ∀ n, 1 ≤ n → s.core n = .error (.CoreNotFound n) := by
  rcases session_new_fst arch ct method env with hf | hf
  · rw [hf] at h
    exact Except.noConfusion h
  · rw [hf] at h
    injection h with h2
    subst h2
    refine ⟨rfl, rfl, ?_⟩
    intro n hn
    obtain ⟨m, rfl⟩ : ∃ m, n = m + 1 := ⟨n - 1, by omega⟩
    simp [SessionModel.core]

/-- Witness for C10: a successfully built ARM session has the one-entry core
table, the singleton list_cores, and CoreNotFound(3) for index 3. -/
theorem claim_C10_witness :
    (⟨.Arm, [CoreType.Arm], true⟩ : SessionModel).cores = [CoreType.Arm]
    ∧ (⟨.Arm, [CoreType.Arm], true⟩ : SessionModel).list_cores = [(0, CoreType.Arm)]
    ∧ (⟨.Arm, [CoreType.Arm], true⟩ : SessionModel).core 3 = .error (.CoreNotFound 3) :=
  ⟨(claim_C10 .Arm .Arm .Normal env_all_true ⟨.Arm, [CoreType.Arm], true⟩ (by decide)).1,
   (claim_C10 .Arm .Arm .Normal env_all_true ⟨.Arm, [CoreType.Arm], true⟩ (by decide)).2.1,
   (claim_C10 .Arm .Arm .Normal env_all_true ⟨.Arm, [CoreType.Arm], true⟩
      (by decide)).2.2 3 (by decide)⟩

end ProbeRs
